import Mathlib

/-!
Shallow embedding of the temporal-consistency core of the GOHMoney repository.

Timestamps are modelled as integers: the Go zero value of time.Time is the
integer 0, time.Time.Equal is integer equality, Before is the strict order
less-than, After is greater-than, and IsZero is equality with 0.

The repository snapshot holds two revisions of the account package:
the legacy one (src/unnamed/part_001, package account over package GOHMoney)
is embedded in namespace legacy, and the superseding currency-aware one
(the account.go half of src/account/account_test.go) in namespace account.
-/

set_option autoImplicit false

namespace GOHMoney

/-- NullTime mirrors the struct wrapped by src/NullTime.go: a validity flag
together with an underlying timestamp. -/
structure NullTime where
  Valid : Bool
  Time : Int
deriving Repr, DecidableEq

instance : Inhabited NullTime := ⟨⟨false, 0⟩⟩

/-- Equal is the method of src/NullTime.go: it returns false when the Valid
flags differ or the underlying times differ, and true otherwise, comparing the
Time fields even when both NullTimes are not Valid. -/
def NullTime.Equal (a b : NullTime) : Bool :=
  if a.Valid != b.Valid || !(a.Time == b.Time) then false else true

/-- EqualTime is the method of src/NullTime.go: always false when the NullTime
is not Valid, otherwise true exactly when the underlying time equals t. -/
def NullTime.EqualTime (nt : NullTime) (t : Int) : Bool :=
  if !nt.Valid then false
  else if !(nt.Time == t) then false
  else true

/-- trimSpace embeds strings.TrimSpace of the Go standard library: it drops
leading and trailing whitespace, here computed structurally over the string's
character list. -/
def trimSpace (s : String) : List Char :=
  ((s.data.dropWhile Char.isWhitespace).reverse.dropWhile Char.isWhitespace).reverse

/-- Modelled from the spec: the sentinel error description strings
(EmptyNameError, ZeroDateOpenedError, ZeroValidDateClosedError,
DateClosedBeforeDateOpenedError) are defined outside the files under src; only
their identity and distinctness matter to the properties proved here, so each
is modelled as its own name. -/
def EmptyNameError : String := "EmptyNameError"

/-- Modelled from the spec: sentinel description for an unset or zero opening
date. -/
def ZeroDateOpenedError : String := "ZeroDateOpenedError"

/-- Modelled from the spec: sentinel description for a closing date that is
set (Valid) but zero. -/
def ZeroValidDateClosedError : String := "ZeroValidDateClosedError"

/-- Modelled from the spec: sentinel description for a closing date strictly
before the opening date. -/
def DateClosedBeforeDateOpenedError : String := "DateClosedBeforeDateOpenedError"

/-- TimeRange is the ordered pair of NullTime values owned by an Account:
a required start and an optional end. The struct shape is fixed by its uses in
src/unnamed/part_001 and src/unnamed/part_000 (its methods live outside src
and are modelled below). -/
structure TimeRange where
  Start : NullTime
  End : NullTime
deriving Repr, DecidableEq

instance : Inhabited TimeRange := ⟨⟨default, default⟩⟩

/-- Modelled from the spec: GOHMoney.TimeRange.Validate is not under src. Per
the spec it reports DateClosedBeforeDateOpenedError when the end is valid and
strictly before the start; the start-zero and end-zero checks appear directly
in the legacy Account.Validate of src/unnamed/part_001, and the repository's
own Test_ValidateAccount (src/unnamed/part_000) pins TimeRange.Validate to
contribute exactly the DateClosedBeforeDateOpenedError message and nothing on
a zero range. -/
def TimeRange.Validate (tr : TimeRange) : Option String :=
  if tr.End.Valid && tr.End.Time < tr.Start.Time then
    some DateClosedBeforeDateOpenedError
  else none

/-- Modelled from the spec: Contains is not under src; per the spec it is true
iff t is not before start and (end is invalid or t is not after end), an
inclusive-on-both-ends containment test when the end is set. -/
def TimeRange.Contains (tr : TimeRange) (t : Int) : Bool :=
  !(t < tr.Start.Time) && (!tr.End.Valid || !(tr.End.Time < t))

/-- Modelled from the spec: TimeRange.Equal is not under src; per the spec it
is true iff both NullTime fields are Equal pairwise. -/
def TimeRange.Equal (a b : TimeRange) : Bool :=
  a.Start.Equal b.Start && a.End.Equal b.End

/-- Err models the Go error interface values that flow through the account
package: a FieldError is a flat ordered list of description strings, the
range setters fail with a sentinel message, a failed containment check
carries the rejected date and the full TimeRange, and codeError stands for
errors of external collaborators (currency codes, balance self-validation). -/
inductive Err where
  | fieldError (descs : List String)
  | rangeError (msg : String)
  | dateOutOfRange (date : Int) (range : TimeRange)
  | codeError (msg : String)
deriving Repr, DecidableEq

/-- Modelled from the spec: the start setter of the range type (gohtime.Start,
SetStart in the spec) is not under src; it sets start to a valid NullTime
wrapping t and fails with ZeroDateOpenedError when t is the zero sentinel. -/
def setStart (t : Int) (tr : TimeRange) : Except Err TimeRange :=
  if t == 0 then .error (.rangeError ZeroDateOpenedError)
  else .ok { tr with Start := ⟨true, t⟩ }

/-- Modelled from the spec: the end setter (gohtime.End, SetEnd in the spec)
is not under src; it fails with ZeroValidDateClosedError when t is zero, fails
with DateClosedBeforeDateOpenedError when t is strictly before the current
start, and otherwise sets end to a valid NullTime wrapping t. -/
def setEnd (t : Int) (tr : TimeRange) : Except Err TimeRange :=
  if t == 0 then .error (.rangeError ZeroValidDateClosedError)
  else if t < tr.Start.Time then .error (.rangeError DateClosedBeforeDateOpenedError)
  else .ok { tr with End := ⟨true, t⟩ }

end GOHMoney

open GOHMoney

/-- Balance as consumed by this core: only its Date field is inspected
(the monetary fields are opaque to the account package). -/
structure Balance where
  Date : Int
deriving Repr, DecidableEq

namespace legacy

/-- Account of the legacy revision (src/unnamed/part_001): a name and a
TimeRange. -/
structure Account where
  Name : String
  timeRange : TimeRange
deriving Repr, DecidableEq

/-- Start of src/unnamed/part_001: the underlying time of the range's start,
read without consulting its Valid flag. -/
def Account.Start (a : Account) : Int :=
  a.timeRange.Start.Time

/-- End of src/unnamed/part_001: the NullTime holding the close date. -/
def Account.End (a : Account) : NullTime :=
  a.timeRange.End

/-- IsOpen of src/unnamed/part_001: true iff the end NullTime is not Valid. -/
def Account.IsOpen (a : Account) : Bool :=
  !a.timeRange.End.Valid

/-- Validate of src/unnamed/part_001: appends, in order, EmptyNameError when
the trimmed name is empty, the message of the TimeRange's own Validate when
that fails, ZeroDateOpenedError when the start time is zero, and
ZeroValidDateClosedError when the end is Valid with a zero time; a non-empty
accumulation is returned as the field error, an empty one as nil. -/
def Account.Validate (a : Account) : Option (List String) :=
  let descs : List String :=
    (if (trimSpace a.Name).length == 0 then [EmptyNameError] else [])
    ++ (match a.timeRange.Validate with
        | some msg => [msg]
        | none => [])
    ++ (if a.Start == 0 then [ZeroDateOpenedError] else [])
    ++ (if a.End.Valid && a.End.Time == 0 then [ZeroValidDateClosedError] else [])
  if descs.length > 0 then some descs else none

/-- ValidateBalance of src/unnamed/part_001: first validates the Account and
returns its field error unchanged; then validates the Balance itself (the
balance package is outside src, so its Validate is passed in as bv) and
returns its error unchanged; finally, when the date is neither contained in
the range nor exactly equal to a Valid end time, returns the out-of-range
error carrying the date and the full range. -/
def Account.ValidateBalance (a : Account) (bv : Balance → Option Err) (b : Balance) : Option Err :=
  match a.Validate with
  | some fe => some (.fieldError fe)
  | none =>
    match bv b with
    | some e => some e
    | none =>
      if !a.timeRange.Contains b.Date && (!(a.End).Valid || !((a.End).Time == b.Date)) then
        some (.dateOutOfRange b.Date a.timeRange)
      else none

/-- Equal of src/unnamed/part_001: false when the names differ, false when the
time ranges are not Equal, true otherwise. -/
def Account.Equal (a b : Account) : Bool :=
  if a.Name != b.Name then false
  else if !a.timeRange.Equal b.timeRange then false
  else true

end legacy

namespace account

/-- Account of the superseding revision (the account.go half of
src/account/account_test.go): a name, a range, and a currency code. The
currency code type is an opaque external identifier, modelled as its string
code. -/
structure Account where
  Name : String
  timeRange : TimeRange
  currencyCode : String
deriving Repr, DecidableEq

/-- Start of the superseding account.go: the underlying time of the range's
start. -/
def Account.Start (a : Account) : Int :=
  a.timeRange.Start.Time

/-- End of the superseding account.go: the NullTime holding the close date. -/
def Account.End (a : Account) : NullTime :=
  a.timeRange.End

/-- IsOpen of the superseding account.go: true iff the end NullTime is not
Valid. -/
def Account.IsOpen (a : Account) : Bool :=
  !a.timeRange.End.Valid

/-- CurrencyCode of the superseding account.go. -/
def Account.CurrencyCode (a : Account) : String :=
  a.currencyCode

/-- Validate of the superseding account.go: appends EmptyNameError when the
trimmed name is empty; a non-empty accumulation is returned as the field
error, an empty one as nil. This revision performs no temporal checks in
Validate. -/
def Account.Validate (a : Account) : Option (List String) :=
  let descs : List String :=
    if (trimSpace a.Name).length == 0 then [EmptyNameError] else []
  if descs.length > 0 then some descs else none

/-- ValidateBalance of the superseding account.go: first validates the
Account and returns its field error unchanged; otherwise, when the date is
neither contained in the range nor exactly equal to a Valid end time, returns
the out-of-range error carrying the date and the full range. -/
def Account.ValidateBalance (a : Account) (b : Balance) : Option Err :=
  match a.Validate with
  | some fe => some (.fieldError fe)
  | none =>
    if !a.timeRange.Contains b.Date && (!(a.End).Valid || !((a.End).Time == b.Date)) then
      some (.dateOutOfRange b.Date a.timeRange)
    else none

/-- AccountOption models the Option type of the superseding account.go: a
mutator of the in-progress Account that may fail. -/
def AccountOption : Type := Account → Except Err Account

/-- applyOptions is the option loop of New in the superseding account.go:
options are applied in the order given, a nil option (here: none) is skipped,
and the first failure aborts the loop with that error. -/
def applyOptions : List (Option AccountOption) → Account → Except Err Account
  | [], a => .ok a
  | none :: os, a => applyOptions os a
  | some o :: os, a =>
    match o a with
    | .error e => .error e
    | .ok a2 => applyOptions os a2

/-- New of the superseding account.go: builds the Account with the name and
currency code, applies the opened time through the range's start setter
(propagating its failure), applies each option in order (aborting on the
first failure and surfacing its error verbatim), then runs Validate; a
non-empty field error is returned alongside the assembled value. The Go
signature returns a pointer and an error, modelled as a pair of options:
a nil pointer is none and a nil error is none. -/
def New (name : String) (currencyCode : String) (opened : Int)
    (os : List (Option AccountOption)) : Option Account × Option Err :=
  let a0 : Account := { Name := name, timeRange := default, currencyCode := currencyCode }
  match setStart opened a0.timeRange with
  | .error e => (none, some e)
  | .ok tr =>
    match applyOptions os { a0 with timeRange := tr } with
    | .error e => (none, some e)
    | .ok a =>
      match a.Validate with
      | some fe => (some a, some (.fieldError fe))
      | none => (some a, none)

/-- Modelled from the spec: the CloseTime option's body is not under src; per
the spec the close-at-time option invokes the TimeRange end setter on the
in-progress Account. -/
def CloseTime (t : Int) : AccountOption := fun a =>
  match setEnd t a.timeRange with
  | .error e => .error e
  | .ok tr => .ok { a with timeRange := tr }

/-- Equal of the superseding account.go: false when the names differ, false
when the time ranges are not Equal, true otherwise (the currency code is not
compared). -/
def Account.Equal (a b : Account) : Bool :=
  if a.Name != b.Name then false
  else if !a.timeRange.Equal b.timeRange then false
  else true

/-- AccountJSON is the transfer object of MarshalJSON and UnmarshalJSON in
the superseding account.go: the aliased Name together with the flattened
Start time, End NullTime and Currency code. The byte-level JSON encoding is
external; the round trip through it is modelled as the identity on this
record. -/
structure AccountJSON where
  Name : String
  Start : Int
  End : NullTime
  Currency : String
deriving Repr, DecidableEq

/-- MarshalJSON of the superseding account.go: emits the name, the start
time, the end NullTime and the currency code. -/
def Account.MarshalJSON (a : Account) : AccountJSON :=
  { Name := a.Name, Start := a.Start, End := a.End, Currency := a.currencyCode }

/-- UnmarshalJSON of the superseding account.go: parses the currency code
through the external collaborator nc (currency.NewCode lives outside src),
rebuilds the range through the validated setters - the start setter on a
fresh range, then the end setter when the incoming End is Valid - and
finally re-runs Validate on the reconstructed Account, surfacing any field
error as the deserialization error. -/
def UnmarshalJSON (nc : String → Except Err String) (j : AccountJSON) : Except Err Account :=
  match nc j.Currency with
  | .error e => .error e
  | .ok c =>
    match setStart j.Start default with
    | .error e => .error e
    | .ok tr =>
      match (if j.End.Valid then setEnd j.End.Time tr else .ok tr) with
      | .error e => .error e
      | .ok tr2 =>
        let a : Account := { Name := j.Name, timeRange := tr2, currencyCode := c }
        match a.Validate with
        | some fe => .error (.fieldError fe)
        | none => .ok a

end account

section Helpers

@[simp]
theorem nullTimeEqualSelf (a : NullTime) : a.Equal a = true := by
  simp [NullTime.Equal]

@[simp]
theorem timeRangeEqualSelf (tr : TimeRange) : tr.Equal tr = true := by
  simp [TimeRange.Equal]

theorem timeRangeDefaultEq : (default : TimeRange) = ⟨⟨false, 0⟩, ⟨false, 0⟩⟩ := rfl

theorem nullTimeDefaultEq : (default : NullTime) = ⟨false, 0⟩ := rfl

theorem ifNonempty_ne_some_nil (l : List String) :
    (if l.length > 0 then some l else none) ≠ some [] := by
  split
  · rename_i hl
    intro h
    injection h with h2
    rw [h2] at hl
    simp at hl
  · intro h
    exact Option.noConfusion h

theorem account.Validate_eq_none_iff (a : account.Account) :
    a.Validate = none ↔ ((trimSpace a.Name).length == 0) = false := by
  rcases a with ⟨n, tr, c⟩
  by_cases h : ((trimSpace n).length == 0) = true <;>
    simp_all [account.Account.Validate]

end Helpers

/-- C7: NullTime.Equal is true iff the Valid flags match and the underlying
timestamps are equal, the timestamps being compared even when both values are
invalid; in particular two invalid NullTimes with differing raw timestamps are
not Equal. -/
theorem C7_nulltime_equal_strict :
    (∀ a b : NullTime, a.Equal b = true ↔ (a.Valid = b.Valid ∧ a.Time = b.Time)) ∧
    NullTime.Equal ⟨false, 0⟩ ⟨false, 1⟩ = false := by
  refine ⟨fun a b => ?_, by decide⟩
  by_cases h1 : a.Valid = b.Valid <;> by_cases h2 : a.Time = b.Time <;>
    simp [NullTime.Equal, h1, h2]

/-- C8: in both revisions of the account package, IsOpen is true iff the end
NullTime is invalid, and the completely zero-valued Account is open. -/
theorem C8_isopen_iff_end_invalid :
    (∀ a : legacy.Account, a.IsOpen = true ↔ a.timeRange.End.Valid = false) ∧
    (∀ a : account.Account, a.IsOpen = true ↔ a.timeRange.End.Valid = false) ∧
    legacy.Account.IsOpen ⟨"", default⟩ = true ∧
    account.Account.IsOpen ⟨"", default, ""⟩ = true := by
  refine ⟨fun a => ?_, fun a => ?_, rfl, rfl⟩ <;>
    simp [legacy.Account.IsOpen, account.Account.IsOpen]

/-- C2: in both revisions, when the Account's own Validate yields a field
error, ValidateBalance returns exactly that field error for every Balance
(and, in the legacy revision, for every behavior of the balance's own
validation, which is never consulted). -/
theorem C2_invalid_account_error_passthrough :
    (∀ (a : account.Account) (fe : List String) (b : Balance),
        a.Validate = some fe → a.ValidateBalance b = some (Err.fieldError fe)) ∧
    (∀ (a : legacy.Account) (fe : List String) (bv : Balance → Option Err) (b : Balance),
        a.Validate = some fe → a.ValidateBalance bv b = some (Err.fieldError fe)) := by
  constructor
  · intro a fe b h
    simp [account.Account.ValidateBalance, h]
  · intro a fe bv b h
    simp [legacy.Account.ValidateBalance, h]

/-- C2 witness: a concrete invalid Account of each revision, with ValidateBalance
returning exactly the Account's own field error. -/
theorem C2_witness :
    account.Account.ValidateBalance ⟨"", default, ""⟩ ⟨3⟩
      = some (Err.fieldError [EmptyNameError]) ∧
    legacy.Account.ValidateBalance ⟨"", default⟩ (fun _ => none) ⟨3⟩
      = some (Err.fieldError [EmptyNameError, ZeroDateOpenedError]) :=
  ⟨C2_invalid_account_error_passthrough.1 ⟨"", default, ""⟩ [EmptyNameError] ⟨3⟩ (by decide),
   C2_invalid_account_error_passthrough.2 ⟨"", default⟩ [EmptyNameError, ZeroDateOpenedError]
     (fun _ => none) ⟨3⟩ (by decide)⟩

/-- C10: in the legacy revision, when the Account itself validates, the
Balance's own validation runs before the containment check and its error is
returned unchanged, with no condition on where the Balance's date lies. -/
theorem C10_balance_self_validation_first (a : legacy.Account) (bv : Balance → Option Err)
    (b : Balance) (e : Err) (hv : a.Validate = none) (hb : bv b = some e) :
    a.ValidateBalance bv b = some e := by
  simp [legacy.Account.ValidateBalance, hv, hb]

/-- C10 witness: a valid legacy Account and a Balance dated strictly inside its
TimeRange whose own validation fails; ValidateBalance returns the balance's
error even though the date is contained. -/
theorem C10_witness :
    TimeRange.Contains ⟨⟨true, 10⟩, ⟨true, 20⟩⟩ 15 = true ∧
    legacy.Account.ValidateBalance ⟨"TEST", ⟨⟨true, 10⟩, ⟨true, 20⟩⟩⟩
      (fun _ => some (Err.codeError "bad balance")) ⟨15⟩
      = some (Err.codeError "bad balance") :=
  ⟨by decide,
   C10_balance_self_validation_first ⟨"TEST", ⟨⟨true, 10⟩, ⟨true, 20⟩⟩⟩
     (fun _ => some (Err.codeError "bad balance")) ⟨15⟩ (Err.codeError "bad balance")
     (by decide) rfl⟩

/-- C1 counterexample: an Account with empty name and zero start time whose
end NullTime is Valid with a zero timestamp; its Validate reports three
descriptions, not exactly the two claimed. -/
theorem C1_counterexample :
    (legacy.Account.Validate ⟨"", ⟨⟨false, 0⟩, ⟨true, 0⟩⟩⟩
        = some [EmptyNameError, ZeroDateOpenedError, ZeroValidDateClosedError]) ∧
    (trimSpace "").length = 0 ∧
    legacy.Account.Validate ⟨"", ⟨⟨false, 0⟩, ⟨true, 0⟩⟩⟩
      ≠ some [EmptyNameError, ZeroDateOpenedError] := by
  refine ⟨by decide, by decide, by decide⟩

/-- C1 (amended): for every legacy Account whose trimmed name is empty, whose
start time is the zero timestamp, and whose end NullTime is invalid, Validate
returns exactly the two descriptions EmptyNameError and ZeroDateOpenedError,
in that order, with neither check short-circuited by the other. -/
theorem C1_validate_exactly_two (a : legacy.Account)
    (h1 : (trimSpace a.Name).length = 0) (h2 : a.timeRange.Start.Time = 0)
    (h3 : a.timeRange.End.Valid = false) :
    a.Validate = some [EmptyNameError, ZeroDateOpenedError] := by
  simp [legacy.Account.Validate, legacy.Account.Start, legacy.Account.End,
    TimeRange.Validate, h1, h2, h3]

/-- C1 witness: the completely zero-valued legacy Account satisfies the
amended hypotheses and reports exactly the two descriptions. -/
theorem C1_witness :
    legacy.Account.Validate ⟨"", ⟨⟨false, 0⟩, ⟨false, 0⟩⟩⟩
      = some [EmptyNameError, ZeroDateOpenedError] :=
  C1_validate_exactly_two ⟨"", ⟨⟨false, 0⟩, ⟨false, 0⟩⟩⟩ (by decide) rfl rfl

/-- C3: a closed Account that passes its own validation accepts a Balance
dated exactly at the close timestamp and rejects one dated strictly after it
with the out-of-range error carrying that date and the full TimeRange. -/
theorem C3_closed_account_balance_boundary (a : account.Account)
    (hv : a.Validate = none) (hc : a.timeRange.End.Valid = true) :
    a.ValidateBalance ⟨a.timeRange.End.Time⟩ = none ∧
    ∀ d : Int, a.timeRange.End.Time < d →
      a.ValidateBalance ⟨d⟩ = some (Err.dateOutOfRange d a.timeRange) := by
  constructor
  · simp [account.Account.ValidateBalance, account.Account.End, hv, hc]
  · intro d hd
    have hne : a.timeRange.End.Time ≠ d := Int.ne_of_lt hd
    simp [account.Account.ValidateBalance, account.Account.End, TimeRange.Contains,
      hv, hc, hd, hne]

/-- C3 witness: a concrete closed Account accepting the balance dated at its
close time and rejecting one dated after it. -/
theorem C3_witness :
    account.Account.ValidateBalance ⟨"Test Account", ⟨⟨true, 10⟩, ⟨true, 20⟩⟩, "EUR"⟩ ⟨20⟩
      = none ∧
    account.Account.ValidateBalance ⟨"Test Account", ⟨⟨true, 10⟩, ⟨true, 20⟩⟩, "EUR"⟩ ⟨21⟩
      = some (Err.dateOutOfRange 21 ⟨⟨true, 10⟩, ⟨true, 20⟩⟩) :=
  ⟨(C3_closed_account_balance_boundary ⟨"Test Account", ⟨⟨true, 10⟩, ⟨true, 20⟩⟩, "EUR"⟩
      (by decide) rfl).1,
   (C3_closed_account_balance_boundary ⟨"Test Account", ⟨⟨true, 10⟩, ⟨true, 20⟩⟩, "EUR"⟩
      (by decide) rfl).2 21 (by decide)⟩

/-- C6: an open Account that passes its own validation accepts a Balance dated
exactly at its start time and rejects one dated strictly before it with the
out-of-range error carrying that exact date and the full TimeRange. -/
theorem C6_open_account_balance_boundary (a : account.Account)
    (hv : a.Validate = none) (ho : a.timeRange.End.Valid = false) :
    a.ValidateBalance ⟨a.timeRange.Start.Time⟩ = none ∧
    ∀ d : Int, d < a.timeRange.Start.Time →
      a.ValidateBalance ⟨d⟩ = some (Err.dateOutOfRange d a.timeRange) := by
  constructor
  · simp [account.Account.ValidateBalance, account.Account.End, TimeRange.Contains, hv, ho]
  · intro d hd
    simp [account.Account.ValidateBalance, account.Account.End, TimeRange.Contains,
      hv, ho, hd]

/-- C6 witness: a concrete open Account accepting the balance dated at its
start and rejecting one dated before it. -/
theorem C6_witness :
    account.Account.ValidateBalance ⟨"Test Account", ⟨⟨true, 10⟩, ⟨false, 0⟩⟩, "EUR"⟩ ⟨10⟩
      = none ∧
    account.Account.ValidateBalance ⟨"Test Account", ⟨⟨true, 10⟩, ⟨false, 0⟩⟩, "EUR"⟩ ⟨9⟩
      = some (Err.dateOutOfRange 9 ⟨⟨true, 10⟩, ⟨false, 0⟩⟩) :=
  ⟨(C6_open_account_balance_boundary ⟨"Test Account", ⟨⟨true, 10⟩, ⟨false, 0⟩⟩, "EUR"⟩
      (by decide) rfl).1,
   (C6_open_account_balance_boundary ⟨"Test Account", ⟨⟨true, 10⟩, ⟨false, 0⟩⟩, "EUR"⟩
      (by decide) rfl).2 9 (by decide)⟩

/-- C9: in both revisions, Validate never returns an empty-but-present field
error collection, and when every check passes it returns the no-error value. -/
theorem C9_no_empty_field_error :
    (∀ a : legacy.Account, a.Validate ≠ some []) ∧
    (∀ a : account.Account, a.Validate ≠ some []) ∧
    (∀ a : legacy.Account, (trimSpace a.Name).length ≠ 0 → a.timeRange.Validate = none →
        a.timeRange.Start.Time ≠ 0 →
        (a.timeRange.End.Valid = true → a.timeRange.End.Time ≠ 0) →
        a.Validate = none) ∧
    (∀ a : account.Account, (trimSpace a.Name).length ≠ 0 → a.Validate = none) := by
  refine ⟨fun a h => ?_, fun a h => ?_, fun a h1 h2 h3 h4 => ?_, fun a h => ?_⟩
  · rw [legacy.Account.Validate] at h
    exact ifNonempty_ne_some_nil _ h
  · rw [account.Account.Validate] at h
    exact ifNonempty_ne_some_nil _ h
  · rcases hE : a.timeRange.End.Valid with _ | _
    · simp [legacy.Account.Validate, legacy.Account.Start, legacy.Account.End,
        h1, h2, h3, hE]
    · simp [legacy.Account.Validate, legacy.Account.Start, legacy.Account.End,
        h1, h2, h3, hE, h4 hE]
  · simp [account.Account.Validate, h]

/-- C9 witness: concrete Accounts of each revision on which every check passes
and Validate returns the no-error value. -/
theorem C9_witness :
    legacy.Account.Validate ⟨"TEST", ⟨⟨true, 10⟩, ⟨false, 0⟩⟩⟩ = none ∧
    account.Account.Validate ⟨"TEST", ⟨⟨true, 10⟩, ⟨false, 0⟩⟩, "EUR"⟩ = none :=
  ⟨C9_no_empty_field_error.2.2.1 ⟨"TEST", ⟨⟨true, 10⟩, ⟨false, 0⟩⟩⟩
      (by decide) (by decide) (by decide) (by decide),
   C9_no_empty_field_error.2.2.2 ⟨"TEST", ⟨⟨true, 10⟩, ⟨false, 0⟩⟩, "EUR"⟩ (by decide)⟩

/-- C4: the constructor New applies the opened time through the range's start
setter and propagates its failure as-is; applies the options in the order
given, aborting on the first failing option and surfacing its error verbatim;
and, when the assembled Account's Validate accumulates field errors, reports
that field error collection as the construction error. -/
theorem C4_new_constructor_error_paths :
    (∀ (name cc : String) (os : List (Option account.AccountOption)),
        account.New name cc 0 os = (none, some (Err.rangeError ZeroDateOpenedError))) ∧
    (∀ (name cc : String) (t : Int) (o : account.AccountOption) (e : Err)
        (os : List (Option account.AccountOption)), t ≠ 0 →
        o ⟨name, ⟨⟨true, t⟩, ⟨false, 0⟩⟩, cc⟩ = .error e →
        account.New name cc t (some o :: os) = (none, some e)) ∧
    (∀ (name cc : String) (t : Int) (o1 o2 : account.AccountOption)
        (a1 : account.Account) (e : Err), t ≠ 0 →
        o1 ⟨name, ⟨⟨true, t⟩, ⟨false, 0⟩⟩, cc⟩ = .ok a1 →
        o2 a1 = .error e →
        account.New name cc t [some o1, some o2] = (none, some e)) ∧
    (∀ (name cc : String) (t : Int) (fe : List String), t ≠ 0 →
        account.Account.Validate ⟨name, ⟨⟨true, t⟩, ⟨false, 0⟩⟩, cc⟩ = some fe →
        account.New name cc t []
          = (some ⟨name, ⟨⟨true, t⟩, ⟨false, 0⟩⟩, cc⟩, some (Err.fieldError fe))) := by
  refine ⟨fun name cc os => ?_, fun name cc t o e os ht ho => ?_,
    fun name cc t o1 o2 a1 e ht ho1 ho2 => ?_, fun name cc t fe ht hval => ?_⟩
  · simp [account.New, setStart]
  · have ht2 : (t == 0) = false := beq_eq_false_iff_ne.mpr ht
    simp [account.New, setStart, ht2, timeRangeDefaultEq, account.applyOptions, ho]
  · have ht2 : (t == 0) = false := beq_eq_false_iff_ne.mpr ht
    simp [account.New, setStart, ht2, timeRangeDefaultEq, account.applyOptions, ho1, ho2]
  · have ht2 : (t == 0) = false := beq_eq_false_iff_ne.mpr ht
    simp [account.New, setStart, ht2, timeRangeDefaultEq, account.applyOptions, hval]

/-- C4 witness: concrete runs of New hitting each error path - a zero opened
time, a failing first option, a failing second option applied to the first
option's result, and an empty trimmed name caught by the final Validate. -/
theorem C4_witness :
    account.New "A" "EUR" 0 [] = (none, some (Err.rangeError ZeroDateOpenedError)) ∧
    account.New "A" "EUR" 5 [some (fun _ => .error (Err.codeError "boom"))]
      = (none, some (Err.codeError "boom")) ∧
    account.New "A" "EUR" 5 [some (fun a => .ok a), some (fun _ => .error (Err.codeError "later"))]
      = (none, some (Err.codeError "later")) ∧
    account.New " " "EUR" 5 []
      = (some ⟨" ", ⟨⟨true, 5⟩, ⟨false, 0⟩⟩, "EUR"⟩, some (Err.fieldError [EmptyNameError])) :=
  ⟨C4_new_constructor_error_paths.1 "A" "EUR" [],
   C4_new_constructor_error_paths.2.1 "A" "EUR" 5 (fun _ => .error (Err.codeError "boom"))
     (Err.codeError "boom") [] (by decide) rfl,
   C4_new_constructor_error_paths.2.2.1 "A" "EUR" 5 (fun a => .ok a)
     (fun _ => .error (Err.codeError "later")) ⟨"A", ⟨⟨true, 5⟩, ⟨false, 0⟩⟩, "EUR"⟩
     (Err.codeError "later") (by decide) rfl rfl,
   C4_new_constructor_error_paths.2.2.2 " " "EUR" 5 [EmptyNameError] (by decide) (by decide)⟩

/-- C5: for an Account that passes its own validation, unmarshalling the
marshalled transfer object yields an Account that the original is Equal to,
whether the end is invalid (no close date) or valid; and UnmarshalJSON
re-runs Validate on the reconstructed Account, surfacing its field error as
the deserialization error. -/
theorem C5_json_roundtrip :
    (∀ (a : account.Account) (nc : String → Except Err String),
        a.Validate = none →
        a.timeRange.Start.Valid = true →
        a.timeRange.Start.Time ≠ 0 →
        (a.timeRange.End.Valid = true →
          a.timeRange.End.Time ≠ 0 ∧ ¬a.timeRange.End.Time < a.timeRange.Start.Time) →
        (a.timeRange.End.Valid = false → a.timeRange.End.Time = 0) →
        nc a.currencyCode = .ok a.currencyCode →
        ∃ b, account.UnmarshalJSON nc a.MarshalJSON = .ok b ∧ a.Equal b = true) ∧
    (∀ (j : account.AccountJSON) (nc : String → Except Err String) (c : String),
        nc j.Currency = .ok c → j.Start ≠ 0 → j.End.Valid = false →
        (trimSpace j.Name).length = 0 →
        account.UnmarshalJSON nc j = .error (Err.fieldError [EmptyNameError])) := by
  constructor
  · intro a nc hv hsv hs0 hec heo hnc
    have hnl : ((trimSpace a.Name).length == 0) = false :=
      (account.Validate_eq_none_iff a).mp hv
    rcases a with ⟨n, ⟨⟨sv, st⟩, ⟨ev, et⟩⟩, c⟩
    simp only at hsv hs0 hec heo hnc hnl
    subst hsv
    have hst : (st == 0) = false := beq_eq_false_iff_ne.mpr hs0
    cases ev
    · have het : et = 0 := heo rfl
      subst het
      refine ⟨⟨n, ⟨⟨true, st⟩, ⟨false, 0⟩⟩, c⟩, ?_, ?_⟩
      · simp [account.UnmarshalJSON, account.Account.MarshalJSON, account.Account.Start,
          account.Account.End, setStart, setEnd, account.Account.Validate,
          timeRangeDefaultEq, hnc, hnl, hst]
      · simp [account.Account.Equal]
    · obtain ⟨hne0, hnlt⟩ := hec rfl
      have het : (et == 0) = false := beq_eq_false_iff_ne.mpr hne0
      refine ⟨⟨n, ⟨⟨true, st⟩, ⟨true, et⟩⟩, c⟩, ?_, ?_⟩
      · simp [account.UnmarshalJSON, account.Account.MarshalJSON, account.Account.Start,
          account.Account.End, setStart, setEnd, account.Account.Validate,
          timeRangeDefaultEq, hnc, hnl, hst, het, hnlt]
      · simp [account.Account.Equal]
  · intro j nc c h1 h2 h3 h4
    have hst : (j.Start == 0) = false := beq_eq_false_iff_ne.mpr h2
    simp [account.UnmarshalJSON, setStart, account.Account.Validate,
      timeRangeDefaultEq, h1, h3, h4, hst]

/-- C5 witness: a concrete closed Account round-trips to an Equal Account, and
a transfer object whose name trims to empty is rejected with EmptyNameError. -/
theorem C5_witness :
    (∃ b, account.UnmarshalJSON (fun s => .ok s)
        (account.Account.MarshalJSON ⟨"Test Account", ⟨⟨true, 10⟩, ⟨true, 20⟩⟩, "EUR"⟩)
        = .ok b ∧
      account.Account.Equal ⟨"Test Account", ⟨⟨true, 10⟩, ⟨true, 20⟩⟩, "EUR"⟩ b = true) ∧
    account.UnmarshalJSON (fun s => .ok s) ⟨" ", 10, ⟨false, 0⟩, "EUR"⟩
      = .error (Err.fieldError [EmptyNameError]) :=
  ⟨C5_json_roundtrip.1 ⟨"Test Account", ⟨⟨true, 10⟩, ⟨true, 20⟩⟩, "EUR"⟩ (fun s => .ok s)
      (by decide) rfl (by decide) (fun _ => ⟨by decide, by decide⟩)
      (fun h => Bool.noConfusion h) rfl,
   C5_json_roundtrip.2 ⟨" ", 10, ⟨false, 0⟩, "EUR"⟩ (fun s => .ok s) "EUR"
      rfl (by decide) rfl (by decide)⟩
